import Mathlib

/-!
Shallow embedding of the DreamLayer report-bundle backend
(src/dream_layer_backend: report_generator.py, report_bundle.py,
run_registry.py).

Python files are embedded as executable Lean definitions.  The CSV module
is modelled structurally: a CSV file is a header row plus data rows of
string cells (the csv library round-trips these faithfully, and no claim
observes quoting).  Fallible file I/O that the Python code catches with
an except branch is made explicit by Boolean fault parameters in the
environment records.  Wall-clock values (datetime.now) enter through a
`now` field of the environment.
-/

/-- Whether the second character list starts with the first. -/
def charsStartWith : List Char → List Char → Bool
  | [], _ => true
  | _ :: _, [] => false
  | p :: ps, c :: cs => p == c && charsStartWith ps cs

/-- Whether the pattern occurs as a contiguous run of the character
list: Python `pat in s`. -/
def charsContain (pat : List Char) : List Char → Bool
  | [] => pat.isEmpty
  | c :: cs => charsStartWith pat (c :: cs) || charsContain pat cs

/-- Python str.lower over the characters of a string. -/
def lowerChars (s : String) : List Char :=
  s.data.map Char.toLower

/-- Python `pat in s.lower()`. -/
def lowerContains (s pat : String) : Bool :=
  charsContain pat.data (lowerChars s)

/-- Whether the character list ends with the pattern. -/
def charsEndWith (s pat : List Char) : Bool :=
  charsStartWith pat.reverse s.reverse

/-- Cell text of a rational value.  Python prints floats as e.g. `7.0`;
the exact digits are observed by no claim, so any injective rendering
serves. -/
def ratCell (q : Rat) : String :=
  toString q.num ++ "/" ++ toString q.den

/-- Cell text of an optional value: Python csv writes None as the empty
string. -/
def optCell (f : α → String) : Option α → String
  | none => ""
  | some v => f v

/-- report_generator.py, dataclass ImageRecord: one CSV row per generated
image.  Python ints are Int, floats are carried as Rat (no arithmetic is
performed on them). -/
structure ImageRecord where
  id : String
  filename : String
  relative_path : String
  prompt : String
  negative_prompt : String
  model_name : String
  sampler_name : String
  steps : Int
  cfg_scale : Rat
  width : Int
  height : Int
  seed : Int
  timestamp : String
  generation_type : String
  batch_index : Int
  denoising_strength : Option Rat := none
  input_image_path : Option String := none
  lora_models : Option String := none
  controlnet_info : Option String := none
  file_size_bytes : Option Int := none
deriving DecidableEq

/-- ImageRecord.get_required_columns: the canonical 15 required CSV
columns. -/
def ImageRecord.get_required_columns : List String :=
  ["id", "filename", "relative_path", "prompt", "negative_prompt",
   "model_name", "sampler_name", "steps", "cfg_scale", "width",
   "height", "seed", "timestamp", "generation_type", "batch_index"]

/-- dataclasses.asdict(record): ordered field/value pairs in declaration
order (all 20 fields, optional ones serialized as empty when None). -/
def ImageRecord.asdict (r : ImageRecord) : List (String × String) :=
  [("id", r.id),
   ("filename", r.filename),
   ("relative_path", r.relative_path),
   ("prompt", r.prompt),
   ("negative_prompt", r.negative_prompt),
   ("model_name", r.model_name),
   ("sampler_name", r.sampler_name),
   ("steps", toString r.steps),
   ("cfg_scale", ratCell r.cfg_scale),
   ("width", toString r.width),
   ("height", toString r.height),
   ("seed", toString r.seed),
   ("timestamp", r.timestamp),
   ("generation_type", r.generation_type),
   ("batch_index", toString r.batch_index),
   ("denoising_strength", optCell ratCell r.denoising_strength),
   ("input_image_path", optCell (fun s => s) r.input_image_path),
   ("lora_models", optCell (fun s => s) r.lora_models),
   ("controlnet_info", optCell (fun s => s) r.controlnet_info),
   ("file_size_bytes", optCell toString r.file_size_bytes)]

/-- The key order of asdict: the 20 declared fields. -/
def ImageRecord.asdictKeys : List String :=
  ["id", "filename", "relative_path", "prompt", "negative_prompt",
   "model_name", "sampler_name", "steps", "cfg_scale", "width",
   "height", "seed", "timestamp", "generation_type", "batch_index",
   "denoising_strength", "input_image_path", "lora_models",
   "controlnet_info", "file_size_bytes"]

/-- The data cells of one record, in asdict key order. -/
def ImageRecord.toRow (r : ImageRecord) : List String :=
  (ImageRecord.asdict r).map Prod.snd

/-- A CSV file, structurally: header plus data rows. -/
structure Csv where
  header : List String
  rows : List (List String)
deriving DecidableEq

/-- ReportGenerator.write_csv: an empty record list yields a header-only
CSV with the canonical required columns; otherwise DictWriter uses the
asdict key order of the records (all 20 fields). -/
def write_csv (records : List ImageRecord) : Csv :=
  if records.isEmpty then
    { header := ImageRecord.get_required_columns, rows := [] }
  else
    { header := ImageRecord.asdictKeys,
      rows := records.map ImageRecord.toRow }

/-- Result shape of ImageRecord.validate_csv_schema.  In the Python
except branch only valid/error/required_columns keys are present; the
remaining fields then hold their default values here. -/
structure CsvValidation where
  valid : Bool
  required_columns : List String
  actual_columns : List String := []
  missing_columns : List String := []
  extra_columns : List String := []
  row_count : Nat := 0
  error : Option String := none
deriving DecidableEq

/-- ImageRecord.validate_csv_schema.  `ioFault` models the environment
raising on open/read (the except branch).  Python computes the missing
and extra column sets with set difference; the deterministic list
renderings below agree with those sets elementwise. -/
def validate_csv_schema (ioFault : Bool) (csv : Csv) : CsvValidation :=
  if ioFault then
    { valid := false,
      required_columns := ImageRecord.get_required_columns,
      error := some "io error" }
  else
    let required := ImageRecord.get_required_columns
    let actual := csv.header
    let missing := required.filter (fun c => !(actual.contains c))
    let extra := (actual.filter (fun c => !(required.contains c))).dedup
    { valid := missing.isEmpty,
      required_columns := required,
      actual_columns := actual,
      missing_columns := missing,
      extra_columns := extra,
      row_count := csv.rows.length }

/-- csv.DictReader cell access: the value of column `name` in `row`. -/
def getCell (header row : List String) (name : String) : Option String :=
  (header.zip row).lookup name

/-- Result shape of ReportGenerator._validate_csv_paths_in_zip. -/
structure PathValidation where
  valid : Bool
  total_csv_paths : Nat := 0
  valid_paths : Nat := 0
  missing_paths : List String := []
  validation_passed : Bool := false
  error : Option String := none
deriving DecidableEq

/-- ReportGenerator._validate_csv_paths_in_zip: collects the non-empty
relative_path cells of the CSV and checks each against the zip entry
name set.  `ioFault` models the except branch (zip or CSV unreadable). -/
def validate_csv_paths_in_zip (ioFault : Bool) (csv : Csv)
    (zipNames : List String) : PathValidation :=
  if ioFault then
    { valid := false, error := some "io error" }
  else
    let csv_paths := csv.rows.filterMap (fun row =>
      match getCell csv.header row "relative_path" with
      | some p => if p = "" then none else some p
      | none => none)
    let missing := csv_paths.filter (fun p => !(zipNames.contains p))
    let validPaths := csv_paths.filter (fun p => zipNames.contains p)
    { valid := missing.isEmpty,
      total_csv_paths := csv_paths.length,
      valid_paths := validPaths.length,
      missing_paths := missing,
      validation_passed := missing.isEmpty }

/-- Nested settings dictionary of one gallery image.  Absent keys are
None; `lora` and `controlnet` hold the json.dumps rendering of a truthy
value when present; `input_image` records truthiness of that key. -/
structure Settings where
  model_name : Option String := none
  sampler_name : Option String := none
  steps : Option Int := none
  cfg_scale : Option Rat := none
  width : Option Int := none
  height : Option Int := none
  seed : Option Int := none
  denoising_strength : Option Rat := none
  input_image : Bool := false
  lora : Option String := none
  controlnet : Option String := none
deriving DecidableEq

/-- One raw image-metadata object from the gallery data source. -/
structure GalleryImage where
  id : Option String := none
  filename : Option String := none
  url : Option String := none
  prompt : Option String := none
  negativePrompt : Option String := none
  timestamp : Option String := none
  file_size : Option Int := none
  settings : Settings := {}
deriving DecidableEq

/-- Gallery data: generation-type keys mapped to ordered image lists, in
dict insertion order. -/
abbrev GalleryData : Type := List (String × List GalleryImage)

/-- Filename resolution in create_csv_records: the filename key, else the
last slash-separated component of the url, else a synthesized name. -/
def extractFilename (img : GalleryImage) (batch_index : Nat) : String :=
  match img.filename with
  | some f => f
  | none =>
    match img.url with
    | some u => (u.splitOn "/").getLastD ""
    | none => "image_" ++ toString batch_index ++ ".png"

/-- Body of the create_csv_records loop: one ImageRecord from one gallery
image, with the Python .get defaults. -/
def mkRecord (now : String) (generation_type : String) (batch_index : Nat)
    (img : GalleryImage) : ImageRecord :=
  let s := img.settings
  let filename := extractFilename img batch_index
  { id := img.id.getD (generation_type ++ "_" ++ toString batch_index),
    filename := filename,
    relative_path := "grids/" ++ generation_type ++ "/" ++ filename,
    prompt := img.prompt.getD "",
    negative_prompt := img.negativePrompt.getD "",
    model_name := s.model_name.getD "unknown",
    sampler_name := s.sampler_name.getD "unknown",
    steps := s.steps.getD 20,
    cfg_scale := s.cfg_scale.getD 7,
    width := s.width.getD 512,
    height := s.height.getD 512,
    seed := s.seed.getD (-1),
    timestamp := img.timestamp.getD now,
    generation_type := generation_type,
    batch_index := (batch_index : Int),
    denoising_strength := s.denoising_strength,
    input_image_path :=
      if s.input_image then some ("grids/input_images/" ++ filename) else none,
    lora_models := s.lora,
    controlnet_info := s.controlnet,
    file_size_bytes := img.file_size }

/-- ReportGenerator.create_csv_records: iterate the gallery mapping in
insertion order, enumerating each image list. -/
def create_csv_records (now : String) (gallery : GalleryData) :
    List ImageRecord :=
  gallery.flatMap (fun gt =>
    gt.2.enum.map (fun p => mkRecord now gt.1 p.1 p.2))

/-- One entry of os.listdir on the served-images directory, with its stat
data. -/
structure ServedFile where
  name : String
  isFile : Bool := true
  mtime : Nat := 0
  size : Nat := 0
deriving DecidableEq

/-- Environment of one ReportGenerator.create_report_bundle call.
`snapshot` is the well-formed temp_gallery_data.json content when one is
readable (a missing, unreadable or shape-rejected file is none — the
code falls through identically in all three cases).  The fault flags
model OSErrors on the reads and writes the code wraps in try blocks:
`validateFault` on the results.csv re-open inside validate_csv_schema,
`pathCheckFault` on the zip/CSV re-open inside
_validate_csv_paths_in_zip, and `configWriteFault` on the config.json
write, which no inner handler catches, so it reaches the outer except of
create_report_bundle. -/
structure GenEnv where
  snapshot : Option GalleryData := none
  servedDirExists : Bool := true
  servedFiles : List ServedFile := []
  validateFault : Bool := false
  pathCheckFault : Bool := false
  configWriteFault : Bool := false
  now : String := "T"

/-- Python datetime.fromtimestamp(mtime).isoformat(): the exact text is
observed by no claim; any injective rendering of the mtime serves. -/
def isoOfMtime (m : Nat) : String :=
  "mtime-" ++ toString m

/-- Image-extension filter of _scan_served_images. -/
def hasImageExt (name : String) : Bool :=
  let l := lowerChars name
  charsEndWith l ".png".data || charsEndWith l ".jpg".data ||
    charsEndWith l ".jpeg".data || charsEndWith l ".webp".data

/-- First classification heuristic of _scan_served_images. -/
def isImg2ImgName (name : String) : Bool :=
  lowerContains name "img2img" || lowerContains name "controlnet"

/-- Second classification heuristic of _scan_served_images. -/
def isExtrasName (name : String) : Bool :=
  lowerContains name "upscaled" || lowerContains name "extras" ||
    lowerContains name "enhanced"

/-- The placeholder record _scan_served_images synthesizes for one served
file. -/
def mkScanImage (f : ServedFile) : GalleryImage :=
  { id := some ("scanned_" ++ f.name ++ "_" ++ toString f.mtime),
    filename := some f.name,
    url := some ("http://localhost:5001/api/images/" ++ f.name),
    prompt := some "Generated image",
    negativePrompt := some "",
    timestamp := some (isoOfMtime f.mtime),
    file_size := some (f.size : Int),
    settings :=
      { model_name := some "unknown", sampler_name := some "unknown",
        steps := some 20, cfg_scale := some 7, width := some 512,
        height := some 512, seed := some (-1) } }

/-- The scan loop of _scan_served_images: skip non-image extensions and
non-files, then append to the img2img, extras or txt2img bucket by the
substring heuristics, in that precedence order. -/
def scanLoop :
    List ServedFile →
      List GalleryImage × List GalleryImage × List GalleryImage
  | [] => ([], [], [])
  | f :: rest =>
    let tie := scanLoop rest
    if !hasImageExt f.name then tie
    else if !f.isFile then tie
    else
      let img := mkScanImage f
      if isImg2ImgName f.name then (tie.1, img :: tie.2.1, tie.2.2)
      else if isExtrasName f.name then (tie.1, tie.2.1, img :: tie.2.2)
      else (img :: tie.1, tie.2.1, tie.2.2)

/-- ReportGenerator._scan_served_images: an absent directory yields three
empty buckets; otherwise the listdir entries are classified by
scanLoop. -/
def scan_served_images (env : GenEnv) : GalleryData :=
  if !env.servedDirExists then
    [("txt2img", []), ("img2img", []), ("extras", [])]
  else
    let tie := scanLoop env.servedFiles
    [("txt2img", tie.1), ("img2img", tie.2.1), ("extras", tie.2.2)]

/-- ReportGenerator.fetch_gallery_data: use the well-formed snapshot when
present, otherwise fall back to the directory scan. -/
def fetch_gallery_data (env : GenEnv) : GalleryData :=
  match env.snapshot with
  | some d => d
  | none => scan_served_images env

/-- The copy loop of copy_images_to_bundle, processing records in order:
a record whose source exists and copies is appended to copied_files, one
whose source is absent to missing_files with a Source-file-not-found
note, and one whose copy raises (here: the source name names a non-file)
to missing_files with the exception text. -/
def copyLoop (env : GenEnv) :
    List ImageRecord → List String × List String
  | [] => ([], [])
  | r :: rest =>
    let cm := copyLoop env rest
    match env.servedFiles.find? (fun f => f.name == r.filename) with
    | some f =>
      if f.isFile then (r.relative_path :: cm.1, cm.2)
      else (cm.1, (r.relative_path ++ ": copy failed") :: cm.2)
    | none =>
      (cm.1, (r.relative_path ++ ": Source file not found") :: cm.2)

/-- Return shape of copy_images_to_bundle. -/
structure CopyInfo where
  copied_files : List String
  missing_files : List String
  generation_types : List String
deriving DecidableEq

/-- ReportGenerator.copy_images_to_bundle.  Python renders the
generation-type set with arbitrary order; first-occurrence order is the
deterministic rendering of that set here. -/
def copy_images_to_bundle (env : GenEnv) (records : List ImageRecord) :
    CopyInfo :=
  let cm := copyLoop env records
  { copied_files := cm.1,
    missing_files := cm.2,
    generation_types := (records.map ImageRecord.generation_type).dedup }

/-- Result dictionary of ReportGenerator.create_report_bundle.  On the
error path Python returns only status/error/report_path keys; the other
fields then hold their defaults here. -/
structure BundleResult where
  status : String
  error : Option String := none
  report_path : Option String := none
  report_filename : Option String := none
  total_images : Nat := 0
  csv_validation : Option CsvValidation := none
  path_validation : Option PathValidation := none
  copied_files : Nat := 0
  missing_files : List String := []
  generation_types : List String := []
  bundle_size_bytes : Nat := 0
deriving DecidableEq

/-- Compressed file size of the produced zip: observed by no claim, so
abstracted to the entry count. -/
def zipFileSize (entries : List String) : Nat :=
  entries.length

/-- Observables of one ReportGenerator.create_report_bundle call: the
returned dictionary, whether the output zip was written and with which
entry names, the results.csv content placed in the staging directory,
and whether the staging directory is gone after the finally block. -/
structure GenOutcome where
  result : BundleResult
  zipWritten : Bool
  zipNames : List String
  csvFile : Csv
  tempDirRemoved : Bool
deriving DecidableEq

/-- ReportGenerator.create_report_bundle: steps 1-9 of the pipeline.  In
this embedding the only step that can raise past a local handler is the
config.json write (configWriteFault), which lands in the outer except
and returns the error dictionary; the finally block removes the staging
directory on both paths.  The zip entry names are the staging-relative
paths of the files written: results.csv, config.json, the copied images,
README.md (os.walk order is abstracted; claims use membership only). -/
def ReportGenerator.create_report_bundle (env : GenEnv)
    (output_filename : Option String) : GenOutcome :=
  let filename :=
    output_filename.getD ("dreamlayer_report_" ++ env.now ++ ".zip")
  let gallery := fetch_gallery_data env
  let records := create_csv_records env.now gallery
  let csv := write_csv records
  let csv_validation := validate_csv_schema env.validateFault csv
  if env.configWriteFault then
    { result :=
        { status := "error", error := some "config write failed",
          report_path := none },
      zipWritten := false, zipNames := [], csvFile := csv,
      tempDirRemoved := true }
  else
    let copy_info := copy_images_to_bundle env records
    let zipNames :=
      ["results.csv", "config.json"] ++ copy_info.copied_files ++
        ["README.md"]
    let path_validation :=
      validate_csv_paths_in_zip env.pathCheckFault csv zipNames
    { result :=
        { status := "success",
          report_path := some ("reports/" ++ filename),
          report_filename := some filename,
          total_images := records.length,
          csv_validation := some csv_validation,
          path_validation := some path_validation,
          copied_files := copy_info.copied_files.length,
          missing_files := copy_info.missing_files,
          generation_types := copy_info.generation_types,
          bundle_size_bytes := zipFileSize zipNames },
      zipWritten := true, zipNames := zipNames, csvFile := csv,
      tempDirRemoved := true }

/-- run_registry.py, dataclass RunConfig: one frozen completed run.
`loras` and `controlnets` carry the json rendering of each element;
`workflow` carries the canonical json.dumps(workflow, sort_keys=True)
text. -/
structure RunConfig where
  run_id : String
  timestamp : String
  model : String
  vae : Option String := none
  loras : List String := []
  controlnets : List String := []
  prompt : String := ""
  negative_prompt : String := ""
  seed : Int := 0
  sampler : String := "euler"
  steps : Int := 20
  cfg_scale : Rat := 7
  width : Int := 512
  height : Int := 512
  batch_size : Int := 1
  batch_count : Int := 1
  workflow : String := ""
  version : String := "1.0.0"
  generated_images : List String := []
  generation_type : String := "txt2img"
deriving DecidableEq

/-- RunRegistry state: the in-memory run_id-keyed mapping in insertion
order, and the parsed content of the persisted storage file (none when
the file does not exist). -/
structure RunRegistry where
  runs : List (String × RunConfig)
  storedFile : Option (List (String × RunConfig)) := none
deriving DecidableEq

/-- RunRegistry.save_runs: rewrite the storage file in full from the
in-memory mapping. -/
def RunRegistry.save_runs (st : RunRegistry) : RunRegistry :=
  { st with storedFile := some st.runs }

/-- RunRegistry.get_run: dictionary lookup by run_id. -/
def RunRegistry.get_run (st : RunRegistry) (run_id : String) :
    Option RunConfig :=
  st.runs.lookup run_id

/-- RunRegistry.get_all_runs: all configs sorted by timestamp descending
(stable, as Python sorted with reverse=True). -/
def RunRegistry.get_all_runs (st : RunRegistry) : List RunConfig :=
  (st.runs.map Prod.snd).mergeSort
    (fun a b => decide (b.timestamp ≤ a.timestamp))

/-- RunRegistry.delete_run: remove the run and rewrite the store when the
run_id is present, otherwise return False and touch nothing. -/
def RunRegistry.delete_run (st : RunRegistry) (run_id : String) :
    Bool × RunRegistry :=
  if (st.runs.lookup run_id).isSome then
    let st' := { st with runs := st.runs.filter (fun p => p.1 != run_id) }
    (true, st'.save_runs)
  else
    (false, st)

/-- report_bundle.py required CSV columns (19, registry variant). -/
def rbRequiredColumns : List String :=
  ["run_id", "timestamp", "model", "vae", "prompt", "negative_prompt",
   "seed", "sampler", "steps", "cfg_scale", "width", "height",
   "batch_size", "batch_count", "generation_type", "image_paths",
   "loras", "controlnets", "workflow_hash"]

/-- json.dumps of a list whose elements are already rendered: Python
renders the empty and the truthy case to the same bracketed form. -/
def jsonListCell (items : List String) : String :=
  "[" ++ String.intercalate ", " items ++ "]"

/-- str(hash(json.dumps(workflow, sort_keys=True))): the hash value is
runtime-dependent and observed by no claim, so the canonical workflow
text itself stands in for it. -/
def workflowHash (w : String) : String :=
  w

/-- One row of the registry-variant results.csv, in rbRequiredColumns
order. -/
def RunConfig.toRow (run : RunConfig) : List String :=
  [run.run_id, run.timestamp, run.model, optCell (fun s => s) run.vae,
   run.prompt, run.negative_prompt, toString run.seed, run.sampler,
   toString run.steps, ratCell run.cfg_scale, toString run.width,
   toString run.height, toString run.batch_size, toString run.batch_count,
   run.generation_type, String.intercalate ";" run.generated_images,
   jsonListCell run.loras, jsonListCell run.controlnets,
   workflowHash run.workflow]

/-- ReportBundleGenerator.generate_csv: header of the 19 required columns
plus one row per run. -/
def rb_generate_csv (runs : List RunConfig) : Csv :=
  { header := rbRequiredColumns, rows := runs.map RunConfig.toRow }

/-- ReportBundleGenerator.validate_csv_schema: True iff no required
column is absent from the header; `ioFault` models the except branch
(unreadable file), which also returns False. -/
def rb_validate_csv_schema (ioFault : Bool) (csv : Csv) : Bool :=
  if ioFault then false
  else rbRequiredColumns.all (fun c => csv.header.contains c)

/-- Environment of one ReportBundleGenerator.create_report_bundle call:
the registry state, the file names present in the output directory the
image copy reads from, and the fault flag of the results.csv re-open
inside validate_csv_schema. -/
structure RBEnv where
  registry : RunRegistry
  outputFiles : List String := []
  validateFault : Bool := false
deriving DecidableEq

/-- ReportBundleGenerator.copy_images_to_bundle: for each run in order,
each non-empty generated image filename whose source exists in the
output directory is copied into images/ and reported. -/
def rb_copy_images (env : RBEnv) (runs : List RunConfig) : List String :=
  runs.flatMap (fun run =>
    run.generated_images.filter (fun f =>
      f != "" && env.outputFiles.contains f))

deriving instance DecidableEq for Except

/-- Observables of one registry-variant create_report_bundle call: the
normal return value or the propagating exception text, whether
report.zip was written and with which entries, whether the staging
directory was ever created and whether it still exists after the call,
and the results.csv content when one was generated. -/
structure RBOutcome where
  result : Except String String
  zipWritten : Bool
  zipNames : List String
  stagingCreated : Bool
  stagingExistsAfter : Bool
  csvFile : Option Csv
deriving DecidableEq

/-- Run selection at the top of the registry-variant
create_report_bundle.  Python treats a None and an empty run_ids
identically (`if run_ids:`), so both arrive here as the empty list. -/
def rb_selected_runs (env : RBEnv) (run_ids : List String) :
    List RunConfig :=
  if run_ids.isEmpty then env.registry.get_all_runs
  else run_ids.filterMap (fun rid => env.registry.get_run rid)

/-- ReportBundleGenerator.create_report_bundle.  An empty run selection
raises ValueError before the staging directory exists; a failed CSV
self-validation raises ValueError inside the try block, whose except
removes the staging directory and re-raises; otherwise the bundle is
zipped (entries: results.csv, config.json, README.md and the copied
images under images/) and all temporaries are removed. -/
def ReportBundleGenerator.create_report_bundle (env : RBEnv)
    (run_ids : List String) : RBOutcome :=
  let runs := rb_selected_runs env run_ids
  if runs.isEmpty then
    { result := Except.error "No runs found to include in report",
      zipWritten := false, zipNames := [], stagingCreated := false,
      stagingExistsAfter := false, csvFile := none }
  else
    let csv := rb_generate_csv runs
    if !rb_validate_csv_schema env.validateFault csv then
      { result := Except.error "CSV schema validation failed",
        zipWritten := false, zipNames := [], stagingCreated := true,
        stagingExistsAfter := false, csvFile := some csv }
    else
      let copied := rb_copy_images env runs
      let zipNames :=
        ["results.csv", "config.json", "README.md"] ++
          copied.map (fun f => "images/" ++ f)
      { result := Except.ok "report.zip",
        zipWritten := true, zipNames := zipNames, stagingCreated := true,
        stagingExistsAfter := false, csvFile := some csv }

/-- The Flask route handler POST /api/report-bundle: a normal return maps
to a success body, a caught exception to an error body with HTTP 500. -/
def api_create_report_bundle (env : RBEnv) (run_ids : List String) :
    (String × Nat) × RBOutcome :=
  let o := ReportBundleGenerator.create_report_bundle env run_ids
  match o.result with
  | Except.ok _ => (("success", 200), o)
  | Except.error _ => (("error", 500), o)

/-- A minimal gallery image: only the filename key is present. -/
def sampleImage : GalleryImage :=
  { filename := some "x.png" }

/-- A snapshot holding one txt2img image. -/
def sampleGallery : GalleryData :=
  [("txt2img", [sampleImage])]

/-- The record create_csv_records derives from sampleImage. -/
def sampleRecord : ImageRecord :=
  mkRecord "T" "txt2img" 0 sampleImage

/-- A minimal frozen run. -/
def sampleRun : RunConfig :=
  { run_id := "r1", timestamp := "2024-01-01", model := "m" }

/-- Registry-variant environment: one run, and the results.csv re-open
inside validate_csv_schema raises. -/
def rbEnvFault : RBEnv :=
  { registry := { runs := [("r1", sampleRun)] }, validateFault := true }

/-- Registry-variant environment with an empty registry. -/
def rbEnvEmpty : RBEnv :=
  { registry := { runs := [] } }

/-- Gallery-variant environment: one snapshot image, and the results.csv
re-open inside validate_csv_schema raises. -/
def genEnvFault : GenEnv :=
  { snapshot := some sampleGallery, validateFault := true }

/-- Gallery-variant environment: one snapshot image whose source file is
absent from the served-images directory. -/
def genEnvMissing : GenEnv :=
  { snapshot := some sampleGallery }

/-- Gallery-variant environment: one snapshot image whose source file is
present. -/
def genEnvOk : GenEnv :=
  { snapshot := some sampleGallery, servedFiles := [{ name := "x.png" }] }

/-- Whether the copy of a record source would succeed: an entry of the
served-images directory bears the filename and is a regular file. -/
def sourceOk (env : GenEnv) (fname : String) : Bool :=
  match env.servedFiles.find? (fun f => f.name == fname) with
  | some f => f.isFile
  | none => false

/-- Header of the C8 scenario: all required columns except
negative_prompt and model_name, plus one extra column. -/
def c8Header : List String :=
  ImageRecord.get_required_columns.filter
    (fun c => c != "negative_prompt" && c != "model_name") ++ ["extra_col"]

/-- A registry holding one run under key a. -/
def regOne : RunRegistry :=
  { runs := [("a", sampleRun)], storedFile := some [("a", sampleRun)] }

/-- A served file whose name routes it to the img2img bucket. -/
def scanFileA : ServedFile :=
  { name := "a_img2img_1.png" }

/-- Scan environment with one served file and no snapshot. -/
def scanEnv : GenEnv :=
  { snapshot := none, servedDirExists := true, servedFiles := [scanFileA] }

/-- Scan environment with no snapshot and no served-images directory. -/
def scanEnvAbsent : GenEnv :=
  { snapshot := none, servedDirExists := false }

/-! Helper lemmas -/

/-- The relative_path cell of a record row under the 20-column header. -/
theorem getCell_relative_path (r : ImageRecord) :
    getCell ImageRecord.asdictKeys (ImageRecord.toRow r) "relative_path" =
      some r.relative_path := by
  rfl

/-- The 15 required columns all occur among the 20 asdict keys. -/
theorem required_subset_asdictKeys :
    ImageRecord.get_required_columns.filter
      (fun c => !(ImageRecord.asdictKeys.contains c)) = [] := by
  decide

/-- With every source present as a regular file, the copy loop copies
each record and reports nothing missing. -/
theorem copyLoop_all_ok (env : GenEnv) (records : List ImageRecord)
    (hok : ∀ r ∈ records, sourceOk env r.filename = true) :
    copyLoop env records =
      (records.map ImageRecord.relative_path, []) := by
  induction records with
  | nil => rfl
  | cons a l ih =>
    have ha := hok a (List.mem_cons_self a l)
    have hl : ∀ r ∈ l, sourceOk env r.filename = true :=
      fun r hr => hok r (List.mem_cons_of_mem a hr)
    unfold sourceOk at ha
    unfold copyLoop
    cases hfa : env.servedFiles.find? (fun f => f.name == a.filename) with
    | none => rw [hfa] at ha; exact absurd ha (by simp)
    | some f =>
      rw [hfa] at ha
      have ha' : f.isFile = true := ha
      simp only [hfa, ha', if_true, ih hl, List.map_cons]

/-- A record whose source is absent contributes a Source-file-not-found
entry to the missing list of the copy loop. -/
theorem copyLoop_missing_mem (env : GenEnv) (records : List ImageRecord)
    (r : ImageRecord) (hr : r ∈ records)
    (hm : env.servedFiles.find? (fun f => f.name == r.filename) = none) :
    (r.relative_path ++ ": Source file not found") ∈
      (copyLoop env records).2 := by
  induction records with
  | nil => cases hr
  | cons a l ih =>
    rcases List.mem_cons.mp hr with rfl | hrl
    · unfold copyLoop
      rw [hm]
      exact List.mem_cons_self _ _
    · have ihm := ih hrl
      unfold copyLoop
      cases hfa : env.servedFiles.find? (fun f => f.name == a.filename) with
      | none => exact List.mem_cons_of_mem _ ihm
      | some f =>
        by_cases hif : f.isFile
        · simp only [hif, if_true]; exact ihm
        · simp only [hif, if_false]; exact List.mem_cons_of_mem _ ihm

/-! Claim theorems -/

/-- C4: for every non-empty record list, validating the CSV written by
write_csv reports valid and a row count equal to the list length. -/
theorem c4_write_validate_roundtrip (records : List ImageRecord)
    (h : records ≠ []) :
    (validate_csv_schema false (write_csv records)).valid = true ∧
      (validate_csv_schema false (write_csv records)).row_count =
        records.length := by
  cases records with
  | nil => exact absurd rfl h
  | cons a l =>
    constructor
    · simp only [validate_csv_schema, write_csv, List.isEmpty_cons,
        if_false, Bool.false_eq_true]
      rw [required_subset_asdictKeys]
      rfl
    · simp only [validate_csv_schema, write_csv, List.isEmpty_cons,
        if_false, Bool.false_eq_true]
      simp [List.length_map]

/-- C4 witness at a one-record list. -/
theorem c4_witness :
    [sampleRecord] ≠ [] ∧
      (validate_csv_schema false (write_csv [sampleRecord])).valid = true ∧
      (validate_csv_schema false (write_csv [sampleRecord])).row_count =
        [sampleRecord].length :=
  ⟨by decide, c4_write_validate_roundtrip [sampleRecord] (by decide)⟩

/-- C5 counterexample: for a one-record list the written header holds 20
columns, so it does not contain exactly the 15 canonical required
columns (denoising_strength is present yet not required). -/
theorem c5_counterexample :
    (write_csv [sampleRecord]).header.length = 20 ∧
    "denoising_strength" ∈ (write_csv [sampleRecord]).header ∧
    "denoising_strength" ∉ ImageRecord.get_required_columns ∧
    (write_csv [sampleRecord]).header ≠ ImageRecord.get_required_columns := by
  decide

/-- C5 amended: the written header always starts with the 15 canonical
required columns and contains all of them; it depends only on whether
the record list is empty (so never on which optional fields are
populated) -- but for a non-empty list it is the full 20-field asdict
key list, not exactly the 15 required columns. -/
theorem c5_amended_header (recs recs' : List ImageRecord)
    (h : recs.isEmpty = recs'.isEmpty) :
    (write_csv recs).header.take 15 = ImageRecord.get_required_columns ∧
    (∀ c ∈ ImageRecord.get_required_columns, c ∈ (write_csv recs).header) ∧
    (write_csv recs).header = (write_csv recs').header := by
  have h' : recs'.isEmpty = recs.isEmpty := h.symm
  cases he : recs.isEmpty with
  | false =>
    rw [he] at h'
    have hw : (write_csv recs).header = ImageRecord.asdictKeys := by
      simp [write_csv, he]
    have hw' : (write_csv recs').header = ImageRecord.asdictKeys := by
      simp [write_csv, h']
    refine ⟨by rw [hw]; decide, by rw [hw]; decide, by rw [hw, hw']⟩
  | true =>
    rw [he] at h'
    have hw : (write_csv recs).header = ImageRecord.get_required_columns := by
      simp [write_csv, he]
    have hw' : (write_csv recs').header = ImageRecord.get_required_columns := by
      simp [write_csv, h']
    refine ⟨by rw [hw]; decide, by rw [hw]; decide, by rw [hw, hw']⟩

/-- C5 witness at the empty list. -/
theorem c5_witness :
    ([] : List ImageRecord).isEmpty = ([] : List ImageRecord).isEmpty ∧
    (write_csv ([] : List ImageRecord)).header.take 15 =
      ImageRecord.get_required_columns :=
  ⟨rfl, (c5_amended_header [] [] rfl).1⟩

/-- C8: a readable CSV validates correctly: valid is true exactly when no
required column is missing from the header, a non-required header column
is reported among extra_columns (and by the first part does not affect
validity), and the scenario header lacking exactly negative_prompt and
model_name yields valid false with exactly those two missing. -/
theorem c8_validate_schema (csv : Csv) :
    ((validate_csv_schema false csv).valid = true ↔
      ∀ c ∈ ImageRecord.get_required_columns, c ∈ csv.header) ∧
    (∀ c ∈ csv.header, c ∉ ImageRecord.get_required_columns →
      c ∈ (validate_csv_schema false csv).extra_columns) ∧
    (validate_csv_schema false (Csv.mk c8Header [])).valid = false ∧
    (validate_csv_schema false (Csv.mk c8Header [])).missing_columns =
      ["negative_prompt", "model_name"] ∧
    "extra_col" ∈ (validate_csv_schema false (Csv.mk c8Header [])).extra_columns := by
  refine ⟨?_, ?_, by decide, by decide, by decide⟩
  · show (ImageRecord.get_required_columns.filter
      (fun c => !(csv.header.contains c))).isEmpty = true ↔ _
    rw [List.isEmpty_iff, List.filter_eq_nil_iff]
    simp
  · intro c hc hnc
    show c ∈ (csv.header.filter
      (fun c => !(ImageRecord.get_required_columns.contains c))).dedup
    rw [List.mem_dedup, List.mem_filter]
    exact ⟨hc, by simp [hnc]⟩

/-- C8 witness: the canonical header itself validates. -/
theorem c8_witness :
    (validate_csv_schema false
        (Csv.mk ImageRecord.get_required_columns [])).valid = true ↔
      ∀ c ∈ ImageRecord.get_required_columns,
        c ∈ (Csv.mk ImageRecord.get_required_columns []).header :=
  (c8_validate_schema (Csv.mk ImageRecord.get_required_columns [])).1

/-- C10: deleting an absent run_id returns False and leaves the whole
registry state -- the in-memory mapping and the persisted store file --
unchanged. -/
theorem c10_delete_run_absent (st : RunRegistry) (rid : String)
    (h : st.runs.lookup rid = none) :
    RunRegistry.delete_run st rid = (false, st) := by
  unfold RunRegistry.delete_run
  rw [h]
  rfl

/-- C10 witness at a concrete registry and an absent key. -/
theorem c10_witness :
    regOne.runs.lookup "b" = none ∧
    RunRegistry.delete_run regOne "b" = (false, regOne) :=
  ⟨by decide, c10_delete_run_absent regOne "b" (by decide)⟩

/-- C6: with an empty registry, the registry-keyed bundle endpoint
answers an error (HTTP 500), the operation raises before any staging
directory or zip exists, and nothing is left behind. -/
theorem c6_empty_registry (env : RBEnv) (ids : List String)
    (h : env.registry.runs = []) :
    (api_create_report_bundle env ids).1 = ("error", 500) ∧
    (api_create_report_bundle env ids).2.result =
      Except.error "No runs found to include in report" ∧
    (api_create_report_bundle env ids).2.zipWritten = false ∧
    (api_create_report_bundle env ids).2.stagingCreated = false ∧
    (api_create_report_bundle env ids).2.stagingExistsAfter = false := by
  have hsel : rb_selected_runs env ids = [] := by
    cases ids with
    | nil =>
      simp [rb_selected_runs, RunRegistry.get_all_runs, h]
    | cons a t =>
      have hall : ∀ (l : List String),
          l.filterMap (fun rid => env.registry.get_run rid) = [] := by
        intro l
        induction l with
        | nil => rfl
        | cons x xs ih =>
          simp [List.filterMap_cons, RunRegistry.get_run, h, ih]
      simp [rb_selected_runs, hall]
  simp [api_create_report_bundle, ReportBundleGenerator.create_report_bundle,
    hsel]

/-- C6 witness at the concrete empty registry. -/
theorem c6_witness :
    rbEnvEmpty.registry.runs = [] ∧
    (api_create_report_bundle rbEnvEmpty ["zzz"]).1 = ("error", 500) :=
  ⟨rfl, (c6_empty_registry rbEnvEmpty ["zzz"] rfl).1⟩

/-- C1 counterexample: in the gallery-keyed ReportGenerator a
self-validation that reports the schema invalid (here: the results.csv
re-open raises, giving the valid-false error result) does not abort
anything -- the operation still writes the ZIP and returns status
success with the invalid validation merely recorded. -/
theorem c1_counterexample :
    (ReportGenerator.create_report_bundle genEnvFault none).result.status =
      "success" ∧
    (ReportGenerator.create_report_bundle genEnvFault none).result.csv_validation =
      some { valid := false,
             required_columns := ImageRecord.get_required_columns,
             error := some "io error" } ∧
    (ReportGenerator.create_report_bundle genEnvFault none).zipWritten =
      true := by
  decide

/-- C1 amended: only the registry-keyed ReportBundleGenerator fails fast
on a failed CSV self-validation (it raises, writes no zip and removes
the staging directory); the gallery-keyed ReportGenerator records the
failed validation in csv_validation but continues, producing the ZIP
and returning status success. -/
theorem c1_amended_fail_fast :
    (∀ (env : RBEnv) (ids : List String),
      env.validateFault = true →
      rb_selected_runs env ids ≠ [] →
      (ReportBundleGenerator.create_report_bundle env ids).result =
        Except.error "CSV schema validation failed" ∧
      (ReportBundleGenerator.create_report_bundle env ids).zipWritten =
        false ∧
      (ReportBundleGenerator.create_report_bundle env ids).stagingExistsAfter =
        false) ∧
    (∀ (env : GenEnv) (name : Option String),
      env.validateFault = true →
      env.configWriteFault = false →
      (ReportGenerator.create_report_bundle env name).result.status =
        "success" ∧
      (ReportGenerator.create_report_bundle env name).result.csv_validation =
        some { valid := false,
               required_columns := ImageRecord.get_required_columns,
               error := some "io error" } ∧
      (ReportGenerator.create_report_bundle env name).zipWritten = true) := by
  constructor
  · intro env ids hv hne
    cases hrs : rb_selected_runs env ids with
    | nil => exact absurd hrs hne
    | cons a t =>
      refine ⟨?_, ?_, ?_⟩ <;>
        simp [ReportBundleGenerator.create_report_bundle, hrs,
          rb_validate_csv_schema, hv]
  · intro env name hv hc
    refine ⟨?_, ?_, ?_⟩ <;>
      simp [ReportGenerator.create_report_bundle, hc, hv,
        validate_csv_schema]

/-- C1 witness: concrete registry-variant abort on failed validation. -/
theorem c1_witness :
    rbEnvFault.validateFault = true ∧
    rb_selected_runs rbEnvFault ["r1"] ≠ [] ∧
    (ReportBundleGenerator.create_report_bundle rbEnvFault ["r1"]).result =
      Except.error "CSV schema validation failed" :=
  ⟨rfl, by decide,
    (c1_amended_fail_fast.1 rbEnvFault ["r1"] rfl (by decide)).1⟩

/-- C2 counterexample: in the registry-keyed variant an exception inside
the pipeline (failed CSV self-validation with a created staging
directory) is re-raised to the caller -- the operation ends in a
propagating exception, not an error-status return value -- although the
staging directory is indeed removed first. -/
theorem c2_counterexample :
    (ReportBundleGenerator.create_report_bundle rbEnvFault ["r1"]).result =
      Except.error "CSV schema validation failed" ∧
    (ReportBundleGenerator.create_report_bundle rbEnvFault ["r1"]).stagingCreated =
      true ∧
    (ReportBundleGenerator.create_report_bundle rbEnvFault ["r1"]).stagingExistsAfter =
      false := by
  decide

/-- C2 amended: the gallery-keyed ReportGenerator catches every pipeline
exception (it always returns a result dictionary of status success or
error, returning the error dictionary when the uncaught config.json
write raises) and its finally block always removes the staging
directory; the registry-keyed variant also always releases its staging
directory, but re-raises the exception instead of returning an error
result. -/
theorem c2_amended_exception_handling :
    (∀ (env : GenEnv) (name : Option String),
      (ReportGenerator.create_report_bundle env name).tempDirRemoved = true ∧
      ((ReportGenerator.create_report_bundle env name).result.status =
          "success" ∨
        (ReportGenerator.create_report_bundle env name).result.status =
          "error") ∧
      (env.configWriteFault = true →
        (ReportGenerator.create_report_bundle env name).result =
          { status := "error", error := some "config write failed",
            report_path := none } ∧
        (ReportGenerator.create_report_bundle env name).zipWritten =
          false)) ∧
    (∀ (env : RBEnv) (ids : List String),
      (ReportBundleGenerator.create_report_bundle env ids).stagingExistsAfter =
        false) := by
  constructor
  · intro env name
    by_cases hc : env.configWriteFault
    · refine ⟨?_, Or.inr ?_, fun _ => ⟨?_, ?_⟩⟩ <;>
        simp [ReportGenerator.create_report_bundle, hc]
    · refine ⟨?_, Or.inl ?_, fun hcc => absurd hcc (by simp [hc])⟩ <;>
        simp [ReportGenerator.create_report_bundle, hc]
  · intro env ids
    by_cases h1 : (rb_selected_runs env ids).isEmpty
    · simp [ReportBundleGenerator.create_report_bundle, h1]
    · by_cases h2 : rb_validate_csv_schema env.validateFault
        (rb_generate_csv (rb_selected_runs env ids))
      · simp [ReportBundleGenerator.create_report_bundle, h1, h2]
      · simp [ReportBundleGenerator.create_report_bundle, h1, h2]

/-- C2 witness at concrete environments of both variants. -/
theorem c2_witness :
    (ReportGenerator.create_report_bundle genEnvOk none).tempDirRemoved =
      true ∧
    (ReportBundleGenerator.create_report_bundle rbEnvEmpty []).stagingExistsAfter =
      false :=
  ⟨(c2_amended_exception_handling.1 genEnvOk none).1,
    c2_amended_exception_handling.2 rbEnvEmpty []⟩

/-- C7: a record whose source image is absent from the served-images
directory does not abort the bundle: the result still has status
success, missing_files holds the Source-file-not-found entry for the
record, and its row is still written to results.csv. -/
theorem c7_missing_source (env : GenEnv) (name : Option String)
    (r : ImageRecord)
    (hc : env.configWriteFault = false)
    (hr : r ∈ create_csv_records env.now (fetch_gallery_data env))
    (hm : env.servedFiles.find? (fun f => f.name == r.filename) = none) :
    (ReportGenerator.create_report_bundle env name).result.status =
      "success" ∧
    (r.relative_path ++ ": Source file not found") ∈
      (ReportGenerator.create_report_bundle env name).result.missing_files ∧
    ImageRecord.toRow r ∈
      (ReportGenerator.create_report_bundle env name).csvFile.rows := by
  have hne : create_csv_records env.now (fetch_gallery_data env) ≠ [] :=
    List.ne_nil_of_mem hr
  have hie : (create_csv_records env.now (fetch_gallery_data env)).isEmpty =
      false := by
    cases hl : create_csv_records env.now (fetch_gallery_data env) with
    | nil => exact absurd hl hne
    | cons a t => rfl
  refine ⟨?_, ?_, ?_⟩
  · simp [ReportGenerator.create_report_bundle, hc]
  · have hmf : (ReportGenerator.create_report_bundle env name).result.missing_files =
        (copyLoop env (create_csv_records env.now (fetch_gallery_data env))).2 := by
      simp [ReportGenerator.create_report_bundle, hc, copy_images_to_bundle]
    rw [hmf]
    exact copyLoop_missing_mem env _ r hr hm
  · have hcsv : (ReportGenerator.create_report_bundle env name).csvFile =
        write_csv (create_csv_records env.now (fetch_gallery_data env)) := by
      simp [ReportGenerator.create_report_bundle, hc]
    rw [hcsv]
    simp only [write_csv, hie, Bool.false_eq_true, if_false]
    exact List.mem_map_of_mem _ hr

/-- C7 witness: a snapshot record for x.png with no served x.png file. -/
theorem c7_witness :
    sampleRecord ∈
      create_csv_records genEnvMissing.now (fetch_gallery_data genEnvMissing) ∧
    (sampleRecord.relative_path ++ ": Source file not found") ∈
      (ReportGenerator.create_report_bundle genEnvMissing none).result.missing_files :=
  ⟨by decide,
    (c7_missing_source genEnvMissing none sampleRecord rfl (by decide)
        (by decide)).2.1⟩

/-- C3 counterexample: with a record whose source image is absent, the
bundle result still has status success while its results.csv contains
the relative_path grids/txt2img/x.png, the ZIP holds no such entry, and
path_validation reports valid false with that path missing. -/
theorem c3_counterexample :
    (ReportGenerator.create_report_bundle genEnvMissing none).result.status =
      "success" ∧
    ImageRecord.toRow sampleRecord ∈
      (ReportGenerator.create_report_bundle genEnvMissing none).csvFile.rows ∧
    getCell (ReportGenerator.create_report_bundle genEnvMissing none).csvFile.header
      (ImageRecord.toRow sampleRecord) "relative_path" =
        some "grids/txt2img/x.png" ∧
    "grids/txt2img/x.png" ∉
      (ReportGenerator.create_report_bundle genEnvMissing none).zipNames ∧
    (ReportGenerator.create_report_bundle genEnvMissing none).result.path_validation =
      some { valid := false, total_csv_paths := 1, valid_paths := 0,
             missing_paths := ["grids/txt2img/x.png"],
             validation_passed := false } := by
  decide

/-- Every relative_path value of a written CSV whose records all appear
in the zip name list is itself a zip name, and the path validation over
that CSV reports valid with nothing missing. -/
theorem csv_paths_covered (records : List ImageRecord) (zipN : List String)
    (hsub : ∀ r ∈ records, r.relative_path ∈ zipN) :
    (validate_csv_paths_in_zip false (write_csv records) zipN).valid = true ∧
    (validate_csv_paths_in_zip false (write_csv records) zipN).missing_paths =
      [] ∧
    (∀ row ∈ (write_csv records).rows, ∀ p,
      getCell (write_csv records).header row "relative_path" = some p →
      p ∈ zipN) := by
  cases records with
  | nil =>
    refine ⟨rfl, rfl, ?_⟩
    intro row hrow
    cases hrow
  | cons a t =>
    have h3 : ∀ row ∈ (write_csv (a :: t)).rows, ∀ p,
        getCell (write_csv (a :: t)).header row "relative_path" = some p →
        p ∈ zipN := by
      intro row hrow p hp
      have hrow' : row ∈ (a :: t).map ImageRecord.toRow := hrow
      rcases List.mem_map.mp hrow' with ⟨r, hrmem, hreq⟩
      subst hreq
      have hg : getCell ImageRecord.asdictKeys (ImageRecord.toRow r)
          "relative_path" = some r.relative_path := getCell_relative_path r
      have hp' : some r.relative_path = some p := by
        rw [← hg]
        exact hp.symm ▸ rfl
      rw [Option.some.injEq] at hp'
      exact hp' ▸ hsub r hrmem
    have hmiss : (validate_csv_paths_in_zip false (write_csv (a :: t))
        zipN).missing_paths = [] := by
      show ((write_csv (a :: t)).rows.filterMap (fun row =>
        match getCell (write_csv (a :: t)).header row "relative_path" with
        | some p => if p = "" then none else some p
        | none => none)).filter (fun p => !(zipN.contains p)) = []
      apply List.filter_eq_nil_iff.mpr
      intro p hp
      rcases List.mem_filterMap.mp hp with ⟨row, hrow, hmatch⟩
      have hpz : p ∈ zipN := by
        cases hg : getCell (write_csv (a :: t)).header row "relative_path" with
        | none => rw [hg] at hmatch; exact absurd hmatch (by simp)
        | some q =>
          rw [hg] at hmatch
          have hmatch' : (if q = "" then (none : Option String)
              else some q) = some p := hmatch
          by_cases hq : q = ""
          · rw [if_pos hq] at hmatch'
            exact absurd hmatch' (by simp)
          · rw [if_neg hq] at hmatch'
            rw [Option.some.injEq] at hmatch'
            exact hmatch' ▸ h3 row hrow q hg
      simpa using hpz
    refine ⟨?_, hmiss, h3⟩
    have hv : (validate_csv_paths_in_zip false (write_csv (a :: t))
          zipN).valid =
        ((validate_csv_paths_in_zip false (write_csv (a :: t))
          zipN).missing_paths).isEmpty := rfl
    rw [hv, hmiss]
    rfl

/-- C3 amended: when every record of the bundle has its source image
present as a regular served file (and no re-open fault occurs), a
successful bundle does satisfy the path invariant -- every
relative_path value of results.csv is an entry of the ZIP and
path_validation reports valid with nothing missing.  (Without that
premise a bundle can succeed while path_validation.valid is false,
since missing source files do not abort the operation.) -/
theorem c3_amended_path_validation (env : GenEnv) (name : Option String)
    (hc : env.configWriteFault = false) (hp : env.pathCheckFault = false)
    (hok : ∀ r ∈ create_csv_records env.now (fetch_gallery_data env),
      sourceOk env r.filename = true) :
    (ReportGenerator.create_report_bundle env name).result.status =
      "success" ∧
    (∃ pv, (ReportGenerator.create_report_bundle env name).result.path_validation =
        some pv ∧ pv.valid = true ∧ pv.missing_paths = []) ∧
    (∀ row ∈ (ReportGenerator.create_report_bundle env name).csvFile.rows,
      ∀ p, getCell (ReportGenerator.create_report_bundle env name).csvFile.header
        row "relative_path" = some p →
      p ∈ (ReportGenerator.create_report_bundle env name).zipNames) := by
  have hcopy := copyLoop_all_ok env
    (create_csv_records env.now (fetch_gallery_data env)) hok
  have hsub : ∀ r ∈ create_csv_records env.now (fetch_gallery_data env),
      r.relative_path ∈
        ["results.csv", "config.json"] ++
          (create_csv_records env.now (fetch_gallery_data env)).map
            ImageRecord.relative_path ++ ["README.md"] := by
    intro r hr
    refine List.mem_append_left _ (List.mem_append_right _ ?_)
    exact List.mem_map_of_mem _ hr
  rcases csv_paths_covered
    (create_csv_records env.now (fetch_gallery_data env))
    (["results.csv", "config.json"] ++
      (create_csv_records env.now (fetch_gallery_data env)).map
        ImageRecord.relative_path ++ ["README.md"]) hsub with ⟨hv, hm, h3⟩
  have hzip : (ReportGenerator.create_report_bundle env name).zipNames =
      ["results.csv", "config.json"] ++
        (create_csv_records env.now (fetch_gallery_data env)).map
          ImageRecord.relative_path ++ ["README.md"] := by
    simp [ReportGenerator.create_report_bundle, hc, copy_images_to_bundle,
      hcopy]
  have hcsv : (ReportGenerator.create_report_bundle env name).csvFile =
      write_csv (create_csv_records env.now (fetch_gallery_data env)) := by
    simp [ReportGenerator.create_report_bundle, hc]
  have hpv : (ReportGenerator.create_report_bundle env name).result.path_validation =
      some (validate_csv_paths_in_zip false
        (write_csv (create_csv_records env.now (fetch_gallery_data env)))
        (["results.csv", "config.json"] ++
          (create_csv_records env.now (fetch_gallery_data env)).map
            ImageRecord.relative_path ++ ["README.md"])) := by
    simp [ReportGenerator.create_report_bundle, hc, hp,
      copy_images_to_bundle, hcopy]
  refine ⟨by simp [ReportGenerator.create_report_bundle, hc],
    ⟨_, hpv, hv, hm⟩, ?_⟩
  rw [hcsv, hzip]
  exact h3

/-- C3 witness: one record whose source file is present. -/
theorem c3_witness :
    (∀ r ∈ create_csv_records genEnvOk.now (fetch_gallery_data genEnvOk),
      sourceOk genEnvOk r.filename = true) ∧
    (∃ pv, (ReportGenerator.create_report_bundle genEnvOk none).result.path_validation =
        some pv ∧ pv.valid = true ∧ pv.missing_paths = []) :=
  ⟨by decide,
    (c3_amended_path_validation genEnvOk none rfl rfl (by decide)).2.1⟩

/-- Each bucket of the scan loop over a longer listing extends the
corresponding bucket over the tail: an element is the head record or
was already present. -/
theorem scanLoop_cons_bound (a : ServedFile) (t : List ServedFile)
    (img : GalleryImage) :
    (img ∈ (scanLoop (a :: t)).1 →
      img = mkScanImage a ∨ img ∈ (scanLoop t).1) ∧
    (img ∈ (scanLoop (a :: t)).2.1 →
      img = mkScanImage a ∨ img ∈ (scanLoop t).2.1) ∧
    (img ∈ (scanLoop (a :: t)).2.2 →
      img = mkScanImage a ∨ img ∈ (scanLoop t).2.2) := by
  refine ⟨fun hx => ?_, fun hx => ?_, fun hx => ?_⟩ <;>
    (by_cases h1 : hasImageExt a.name <;>
      by_cases h2 : a.isFile <;>
        by_cases h3 : isImg2ImgName a.name <;>
          by_cases h4 : isExtrasName a.name <;>
            simp [scanLoop, h1, h2, h3, h4] at hx <;>
              tauto)

/-- Conversely, each bucket over the tail is contained in the bucket
over the longer listing. -/
theorem scanLoop_mono (a : ServedFile) (t : List ServedFile)
    (img : GalleryImage) :
    (img ∈ (scanLoop t).1 → img ∈ (scanLoop (a :: t)).1) ∧
    (img ∈ (scanLoop t).2.1 → img ∈ (scanLoop (a :: t)).2.1) ∧
    (img ∈ (scanLoop t).2.2 → img ∈ (scanLoop (a :: t)).2.2) := by
  refine ⟨fun hx => ?_, fun hx => ?_, fun hx => ?_⟩ <;>
    (by_cases h1 : hasImageExt a.name <;>
      by_cases h2 : a.isFile <;>
        by_cases h3 : isImg2ImgName a.name <;>
          by_cases h4 : isExtrasName a.name <;>
            simp [scanLoop, h1, h2, h3, h4, hx])

/-- Every record placed in any scan bucket is the synthesized
placeholder of some served file. -/
theorem scanLoop_shape (l : List ServedFile) (img : GalleryImage)
    (h : img ∈ (scanLoop l).1 ∨ img ∈ (scanLoop l).2.1 ∨
      img ∈ (scanLoop l).2.2) :
    ∃ f, img = mkScanImage f := by
  induction l with
  | nil => simp [scanLoop] at h
  | cons a t ih =>
    rcases h with h | h | h
    · rcases (scanLoop_cons_bound a t img).1 h with he | hm
      · exact ⟨a, he⟩
      · exact ih (Or.inl hm)
    · rcases (scanLoop_cons_bound a t img).2.1 h with he | hm
      · exact ⟨a, he⟩
      · exact ih (Or.inr (Or.inl hm))
    · rcases (scanLoop_cons_bound a t img).2.2 h with he | hm
      · exact ⟨a, he⟩
      · exact ih (Or.inr (Or.inr hm))

/-- An eligible served file (image extension, regular file) lands in
the bucket selected by the substring heuristics, img2img taking
precedence over extras. -/
theorem scanLoop_complete (l : List ServedFile) (f : ServedFile)
    (hf : f ∈ l) (hfile : f.isFile = true)
    (hext : hasImageExt f.name = true) :
    mkScanImage f ∈
      (if isImg2ImgName f.name then (scanLoop l).2.1
       else if isExtrasName f.name then (scanLoop l).2.2
       else (scanLoop l).1) := by
  induction l with
  | nil => cases hf
  | cons a t ih =>
    rcases List.mem_cons.mp hf with rfl | hft
    · by_cases h3 : isImg2ImgName f.name <;>
        by_cases h4 : isExtrasName f.name <;>
          simp [scanLoop, hext, hfile, h3, h4]
    · have ihm := ih hft
      have mono := scanLoop_mono a t (mkScanImage f)
      by_cases h3 : isImg2ImgName f.name
      · rw [if_pos h3] at ihm ⊢
        exact mono.2.1 ihm
      · by_cases h4 : isExtrasName f.name
        · rw [if_neg h3, if_pos h4] at ihm ⊢
          exact mono.2.2 ihm
        · rw [if_neg h3, if_neg h4] at ihm ⊢
          exact mono.1 ihm

/-- C9: with no well-formed snapshot the adapter falls back to the
directory scan; an absent served-images directory yields three empty
sequences; with the directory present the scan output is the three
scanLoop buckets, every eligible image file lands in the bucket chosen
by the substring heuristics (img2img/controlnet first, then
upscaled/extras/enhanced, else txt2img), and every synthesized record
carries seed -1 and the prompt text Generated image. -/
theorem c9_scan_adapter (env : GenEnv) :
    (env.snapshot = none → fetch_gallery_data env = scan_served_images env) ∧
    (env.servedDirExists = false →
      scan_served_images env =
        [("txt2img", []), ("img2img", []), ("extras", [])]) ∧
    (env.servedDirExists = true →
      scan_served_images env =
        [("txt2img", (scanLoop env.servedFiles).1),
         ("img2img", (scanLoop env.servedFiles).2.1),
         ("extras", (scanLoop env.servedFiles).2.2)]) ∧
    (∀ f ∈ env.servedFiles, f.isFile = true → hasImageExt f.name = true →
      mkScanImage f ∈
        (if isImg2ImgName f.name then (scanLoop env.servedFiles).2.1
         else if isExtrasName f.name then (scanLoop env.servedFiles).2.2
         else (scanLoop env.servedFiles).1)) ∧
    (∀ gt imgs, (gt, imgs) ∈ scan_served_images env → ∀ img ∈ imgs,
      img.settings.seed = some (-1) ∧
        img.prompt = some "Generated image") := by
  refine ⟨fun h => ?_, fun h => ?_, fun h => ?_,
    fun f hf hfile hext => scanLoop_complete env.servedFiles f hf hfile hext,
    ?_⟩
  · simp [fetch_gallery_data, h]
  · simp [scan_served_images, h]
  · simp [scan_served_images, h]
  · intro gt imgs hmem img himg
    by_cases hd : env.servedDirExists
    · have hscan : scan_served_images env =
          [("txt2img", (scanLoop env.servedFiles).1),
           ("img2img", (scanLoop env.servedFiles).2.1),
           ("extras", (scanLoop env.servedFiles).2.2)] := by
        simp [scan_served_images, hd]
      rw [hscan] at hmem
      have hshape : ∃ f, img = mkScanImage f := by
        rcases List.mem_cons.mp hmem with h | hmem2
        · cases h
          exact scanLoop_shape env.servedFiles img (Or.inl himg)
        · rcases List.mem_cons.mp hmem2 with h | hmem3
          · cases h
            exact scanLoop_shape env.servedFiles img (Or.inr (Or.inl himg))
          · rcases List.mem_cons.mp hmem3 with h | hmem4
            · cases h
              exact scanLoop_shape env.servedFiles img
                (Or.inr (Or.inr himg))
            · cases hmem4
      rcases hshape with ⟨f, rfl⟩
      exact ⟨rfl, rfl⟩
    · rw [Bool.not_eq_true] at hd
      have hscan : scan_served_images env =
          [("txt2img", []), ("img2img", []), ("extras", [])] := by
        simp [scan_served_images, hd]
      rw [hscan] at hmem
      rcases List.mem_cons.mp hmem with h | hmem2
      · cases h; cases himg
      · rcases List.mem_cons.mp hmem2 with h | hmem3
        · cases h; cases himg
        · rcases List.mem_cons.mp hmem3 with h | hmem4
          · cases h; cases himg
          · cases hmem4

/-- C9 witness: concrete fallback, empty-directory and classification
instances. -/
theorem c9_witness :
    fetch_gallery_data scanEnv = scan_served_images scanEnv ∧
    scan_served_images scanEnvAbsent =
      [("txt2img", []), ("img2img", []), ("extras", [])] ∧
    mkScanImage scanFileA ∈
      (if isImg2ImgName scanFileA.name then (scanLoop scanEnv.servedFiles).2.1
       else if isExtrasName scanFileA.name then
         (scanLoop scanEnv.servedFiles).2.2
       else (scanLoop scanEnv.servedFiles).1) :=
  ⟨(c9_scan_adapter scanEnv).1 rfl,
    (c9_scan_adapter scanEnvAbsent).2.1 rfl,
    (c9_scan_adapter scanEnv).2.2.2.1 scanFileA (by decide) rfl (by decide)⟩
